import Mathlib

/-!
Verification of the IMS-BAO client-side domain logic.

The definitions below are shallow embeddings of the pure computations in the
React components of the repository:

* `getStatus`, `productMatchesSearch`, `productsSearchFilter`
  from `ProductsManager.tsx`;
* `lowStockCount`, `isClaimedStatus`, `inPeriodWindow`, `filterOrdersByPeriod`,
  `totalRevenue` from `DashboardHome.tsx`;
* `filteredOrders`, `getProductName`, `adminCreateOrderRequest`
  from `OrdersManager.tsx` (the API-backed version);
* `shopFilteredProducts`, `shopFilteredUniforms`, `uniformGroups`,
  `studentTotalAmount`, `handleSubmitOrder` and the quantity-control
  operations from `StudentShop.tsx`;
* `studentMatchesSearch`, `studentsSearchFilter` from `UsersManager.tsx`.

JavaScript numbers are modelled as `Int` (the claims only involve sums,
products and comparisons; `none : Option Int` stands for `NaN` where a
computation can produce it), JS strings as `String`, absent (`undefined` or
`null`) values as `none : Option _`.  `s.includes(t)` is modelled by
`jsIncludes`, `s.toLowerCase()` by `jsToLower`, and the JS truthiness tests
that appear in the source (`!s` on a string, `a || b` on numbers) by
`isFalsyStr` and `jsOrNum`.
-/

/-- Character-list model of the JavaScript `hay.includes(needle)` test:
true when `needle` occurs contiguously inside `hay`. -/
def strContains (hay needle : List Char) : Bool :=
  match hay with
  | [] => needle.isEmpty
  | _ :: t => needle.isPrefixOf hay || strContains t needle

/-- JavaScript `hay.includes(needle)` on strings. -/
def jsIncludes (hay needle : String) : Bool :=
  strContains hay.toList needle.toList

/-- JavaScript `s.toLowerCase()` (character-wise lowering, written on the
underlying character list so that the kernel can evaluate it). -/
def jsToLower (s : String) : String :=
  ⟨s.data.map Char.toLower⟩

/-- JavaScript truthiness of an optional string: `undefined` and `""` are
falsy, every other string is truthy. -/
def isFalsyStr : Option String → Bool
  | none => true
  | some s => s.isEmpty

/-- JavaScript `a || b` on optional numbers: `undefined` (`none`) and `0` are
falsy, so they fall through to the right operand. -/
def jsOrNum : Option Int → Option Int → Option Int
  | some a, b => if a = 0 then b else some a
  | none, b => b

/-- Product record, as in the `Product` interface of `lib/api.ts`
(the optional image and timestamp fields play no role in any claim). -/
structure Product where
  productId : Int
  productName : String
  productCategory : String
  price : Int
  status : String
  quantity : Int
deriving DecidableEq

/-- Student record, as in the `Student` interface of `lib/api.ts`. -/
structure StudentRec where
  studentId : Int
  firstname : String
  lastname : String
  college : String
  program : String
deriving DecidableEq

/-- Transaction attached to an order; `OrdersManager.tsx` reads
`t.student` which may be absent. -/
structure TransactionRec where
  student : Option StudentRec
deriving DecidableEq

/-- Order record, as in the `Order` interface of `lib/api.ts` plus the
`transactions` array that `OrdersManager.tsx` reads off the fetched objects.
`createdAt` is an optional timestamp (milliseconds). -/
structure Order where
  orderId : Nat
  productId : Int
  dateToClaim : String
  status : String
  amount : Int
  createdAt : Option Int
  transactions : List TransactionRec
deriving DecidableEq

/-- Status derivation from `ProductsManager.tsx` `getStatus`:
`if (stock === 0) return "out of stock"; if (stock <= 10) return "low stock";
return "in stock";`. -/
def getStatus (stock : Int) : String :=
  if stock = 0 then "out of stock"
  else if stock ≤ 10 then "low stock"
  else "in stock"

/-- Low-stock counter from `DashboardHome.tsx` `loadDashboardData`:
`products.filter(p => p.quantity < 10).length`. -/
def lowStockCount (products : List Product) : Nat :=
  (products.filter (fun p => decide (p.quantity < 10))).length

/-- C2 counterexample input: a product record with a negative stock value
(the stock form field `parseInt(e.target.value) || 0` admits negatives). -/
def negativeStockExample : Int := -1

/-- C2: the claim says `getStatus q = "out of stock"` for every `q ≤ 0`,
but the source tests `stock === 0` exactly, so `q = -1` falls through to the
`stock <= 10` branch and yields `"low stock"`. -/
theorem getStatus_counterexample :
    negativeStockExample ≤ 0
    ∧ getStatus negativeStockExample = "low stock"
    ∧ getStatus negativeStockExample ≠ "out of stock" := by
  refine ⟨by decide, by decide, by decide⟩

/-- C2 (amended): `getStatus` returns `"out of stock"` exactly at quantity 0,
`"low stock"` for every other quantity at most 10 (negative quantities
included), and `"in stock"` above 10. -/
theorem getStatus_amended (q : Int) :
    (q = 0 → getStatus q = "out of stock")
    ∧ (q ≠ 0 → q ≤ 10 → getStatus q = "low stock")
    ∧ (10 < q → getStatus q = "in stock") := by
  unfold getStatus
  refine ⟨fun h0 => by simp [h0], fun h0 h10 => by simp [h0, h10], fun h => ?_⟩
  have h0 : ¬ q = 0 := by omega
  have h10 : ¬ q ≤ 10 := by omega
  simp [h0, h10]

/-- C2 witness: the amended statement evaluated at quantities 0, 5 and 11. -/
theorem getStatus_amended_witness :
    getStatus 0 = "out of stock"
    ∧ getStatus 5 = "low stock"
    ∧ getStatus 11 = "in stock" :=
  ⟨(getStatus_amended 0).1 rfl,
   (getStatus_amended 5).2.1 (by decide) (by decide),
   (getStatus_amended 11).2.2 (by decide)⟩

/-- C3 counterexample input: an out-of-stock product. -/
def outOfStockProduct : Product :=
  { productId := 1, productName := "RTU Lanyard", productCategory := "Supplies",
    price := 75, status := "out of stock", quantity := 0 }

/-- C3: the dashboard counts products with `quantity < 10`, which is not the
set of products whose derived status is `"low stock"`: a product with
quantity 0 (derived status `"out of stock"`) is counted. -/
theorem lowStockCount_counterexample :
    lowStockCount [outOfStockProduct] = 1
    ∧ (([outOfStockProduct].filter
        (fun p => decide (getStatus p.quantity = "low stock"))).length) = 0 := by
  refine ⟨by decide, by decide⟩

/-- Pointwise comparison of the dashboard predicate `quantity < 10` with the
status buckets of `getStatus`. -/
theorem lt_ten_iff_status (q : Int) :
    decide (q < 10)
      = ((decide (getStatus q = "low stock") || decide (getStatus q = "out of stock"))
          && decide (q ≠ 10)) := by
  unfold getStatus
  by_cases h0 : q = 0
  · subst h0; decide
  · by_cases h10 : q ≤ 10
    · rw [if_neg h0, if_pos h10]
      by_cases h10e : q = 10
      · subst h10e; decide
      · have hlt : q < 10 := by omega
        simp [hlt, h10e]
    · rw [if_neg h0, if_neg h10]
      have hlt : ¬ q < 10 := by omega
      simp [hlt]

/-- C3 (amended): the dashboard low-stock counter counts exactly the products
whose derived status is `"low stock"` or `"out of stock"` and whose quantity
is not exactly 10; equivalently those with `quantity < 10`.  Relative to the
original claim, products with quantity at most 0 are included and products
with quantity exactly 10 are excluded. -/
theorem lowStockCount_amended (products : List Product) :
    lowStockCount products
      = (products.filter (fun p =>
          (decide (getStatus p.quantity = "low stock")
            || decide (getStatus p.quantity = "out of stock"))
          && decide (p.quantity ≠ 10))).length := by
  unfold lowStockCount
  congr 1
  exact List.filter_congr (fun p _ => lt_ten_iff_status p.quantity)

/-- Window boundaries that `DashboardHome.tsx` `filterOrdersByPeriod` computes
from the wall clock before filtering: midnight today, the most recent Sunday,
the first of the month, January 1.  They enter the model as an environment. -/
structure NowEnv where
  todayStart : Int
  weekStart : Int
  monthStart : Int
  yearStart : Int
deriving DecidableEq

/-- Completed-order test from `DashboardHome.tsx`:
`o.status.toLowerCase() === "claimed"`. -/
def isClaimedStatus (status : String) : Bool :=
  jsToLower status == "claimed"

/-- Per-order predicate of `DashboardHome.tsx` `filterOrdersByPeriod`:
`"all"` accepts everything; otherwise an order without `createdAt` is
dropped, and the date is compared against the window start for the period
(an unrecognized period string falls into the `default: return true` arm). -/
def inPeriodWindow (salesPeriod : String) (env : NowEnv) (o : Order) : Bool :=
  if salesPeriod == "all" then true
  else
    match o.createdAt with
    | none => false
    | some t =>
      if salesPeriod == "today" then decide (env.todayStart ≤ t)
      else if salesPeriod == "week" then decide (env.weekStart ≤ t)
      else if salesPeriod == "month" then decide (env.monthStart ≤ t)
      else if salesPeriod == "year" then decide (env.yearStart ≤ t)
      else true

/-- List filter of `DashboardHome.tsx` `filterOrdersByPeriod`. -/
def filterOrdersByPeriod (salesPeriod : String) (env : NowEnv)
    (orders : List Order) : List Order :=
  orders.filter (inPeriodWindow salesPeriod env)

/-- Revenue computation of `DashboardHome.tsx` `loadDashboardData`: filter the
orders down to status `"claimed"` (case-insensitively), filter by the selected
period, then sum the `amount` field. -/
def totalRevenue (salesPeriod : String) (env : NowEnv)
    (orders : List Order) : Int :=
  ((filterOrdersByPeriod salesPeriod env
      (orders.filter (fun o => isClaimedStatus o.status))).map Order.amount).sum

/-- C1: for every order list and every selected period, the dashboard revenue
equals the sum of `amount` over exactly the orders that are claimed
(case-insensitively) and inside the selected window, and for the `"all"`
period it equals the sum over every claimed order, `createdAt` or not. -/
theorem dashboard_revenue_spec (salesPeriod : String) (env : NowEnv)
    (orders : List Order) :
    totalRevenue salesPeriod env orders
      = ((orders.filter (fun o =>
            isClaimedStatus o.status && inPeriodWindow salesPeriod env o)).map
          Order.amount).sum
    ∧ totalRevenue "all" env orders
      = ((orders.filter (fun o => isClaimedStatus o.status)).map
          Order.amount).sum := by
  have key : ∀ sp : String,
      totalRevenue sp env orders
        = ((orders.filter (fun o =>
              isClaimedStatus o.status && inPeriodWindow sp env o)).map
            Order.amount).sum := by
    intro sp
    unfold totalRevenue filterOrdersByPeriod
    rw [List.filter_filter]
    have hswap : (orders.filter fun a => inPeriodWindow sp env a && isClaimedStatus a.status)
        = (orders.filter fun o => isClaimedStatus o.status && inPeriodWindow sp env o) :=
      List.filter_congr (fun o _ => Bool.and_comm _ _)
    rw [hswap]
  refine ⟨key salesPeriod, ?_⟩
  rw [key "all"]
  congr 2
  apply List.filter_congr
  intro o _
  have hall : inPeriodWindow "all" env o = true := rfl
  rw [hall, Bool.and_true]

/-- Product-name lookup from `OrdersManager.tsx` `getProductName`:
`products.find(p => p.productId === productId)?.productName || "Unknown Product"`.
The JS `||` falls back not only when no product matches (`undefined`) but also
when the matching product has the empty string as its name. -/
def getProductName (products : List Product) (pid : Int) : String :=
  match products.find? (fun q => decide (q.productId = pid)) with
  | some p => if p.productName = "" then "Unknown Product" else p.productName
  | none => "Unknown Product"

/-- C9 counterexample input: a product whose name is the empty string. -/
def unnamedProduct : Product :=
  { productId := 7, productName := "", productCategory := "Other",
    price := 10, status := "in stock", quantity := 5 }

/-- C9: the lookup does not always return the matching product name when the
id is present: for a product whose stored name is the empty string the JS
`||` fallback fires and `"Unknown Product"` is returned instead. -/
theorem getProductName_counterexample :
    ([unnamedProduct].find? (fun q => decide (q.productId = 7)))
      = some unnamedProduct
    ∧ getProductName [unnamedProduct] 7 = "Unknown Product"
    ∧ getProductName [unnamedProduct] 7 ≠ unnamedProduct.productName := by
  refine ⟨by decide, by decide, by decide⟩

/-- C9 (amended): the lookup is total; it returns `"Unknown Product"` when no
product with the id exists, the product name when the id is present with a
non-empty name, and `"Unknown Product"` again when the id is present but the
stored name is the empty string. -/
theorem getProductName_amended (products : List Product) (pid : Int) :
    (products.find? (fun q => decide (q.productId = pid)) = none →
      getProductName products pid = "Unknown Product")
    ∧ (∀ p, products.find? (fun q => decide (q.productId = pid)) = some p →
        p.productName ≠ "" → getProductName products pid = p.productName)
    ∧ (∀ p, products.find? (fun q => decide (q.productId = pid)) = some p →
        p.productName = "" → getProductName products pid = "Unknown Product") := by
  unfold getProductName
  refine ⟨fun h => by rw [h], fun p hp hne => ?_, fun p hp he => ?_⟩
  · rw [hp]
    simp [hne]
  · rw [hp]
    simp [he]

/-- C9 witness: the three amended cases at concrete inputs. -/
theorem getProductName_amended_witness :
    getProductName [] 5 = "Unknown Product"
    ∧ getProductName [outOfStockProduct] 1 = "RTU Lanyard"
    ∧ getProductName [unnamedProduct] 7 = "Unknown Product" :=
  ⟨(getProductName_amended [] 5).1 rfl,
   (getProductName_amended [outOfStockProduct] 1).2.1 outOfStockProduct
     (by decide) (by decide),
   (getProductName_amended [unnamedProduct] 7).2.2 unnamedProduct
     (by decide) rfl⟩

/-- Order-list filter of `OrdersManager.tsx` (the API-backed version): a
student sees only orders whose transactions carry their name; then the order
id rendered as a string must contain the search term (case-insensitively) and
the status must match the selected status unless that is `"all"`. -/
def filteredOrders (userRole userName searchTerm statusFilter : String)
    (orders : List Order) : List Order :=
  orders.filter (fun o =>
    (if userRole == "student" then
      decide (0 < o.transactions.length) &&
        o.transactions.any (fun t =>
          match t.student with
          | none => false
          | some st =>
            !st.firstname.isEmpty &&
              jsIncludes (jsToLower (st.firstname ++ " " ++ st.lastname))
                (jsToLower userName))
     else true)
    && jsIncludes (jsToLower (toString o.orderId)) (jsToLower searchTerm)
    && (statusFilter == "all" || jsToLower o.status == jsToLower statusFilter))

/-- Every character list contains the empty list. -/
theorem strContains_nil (hay : List Char) : strContains hay [] = true := by
  cases hay with
  | nil => rfl
  | cons c t => simp [strContains, List.isPrefixOf]

/-- JavaScript `hay.includes("")` is always true. -/
theorem jsIncludes_empty (hay : String) : jsIncludes hay "" = true := by
  unfold jsIncludes
  have h : ("" : String).toList = [] := rfl
  rw [h, strContains_nil]

/-- C7: with status filter `"all"`, an empty search term and a non-student
role, the orders-manager filter returns its input unchanged, in order. -/
theorem filteredOrders_all_identity (userRole userName : String)
    (orders : List Order) (h : userRole ≠ "student") :
    filteredOrders userRole userName "" "all" orders = orders := by
  unfold filteredOrders
  rw [List.filter_eq_self]
  intro o _
  have hb : (userRole == "student") = false := by
    rw [beq_eq_false_iff_ne]
    exact h
  have hlower : jsToLower "" = "" := rfl
  simp [hb, hlower, jsIncludes_empty]

/-- C7 witness: the identity evaluated on a concrete two-order list with the
admin role. -/
theorem filteredOrders_all_identity_witness :
    filteredOrders "admin" "Juan Dela Cruz" "" "all"
      [{ orderId := 1, productId := 1, dateToClaim := "2025-11-04",
         status := "pending", amount := 150, createdAt := some 100,
         transactions := [] },
       { orderId := 2, productId := 2, dateToClaim := "2025-11-05",
         status := "claimed", amount := 850, createdAt := none,
         transactions := [{ student := none }] }]
      = [{ orderId := 1, productId := 1, dateToClaim := "2025-11-04",
           status := "pending", amount := 150, createdAt := some 100,
           transactions := [] },
         { orderId := 2, productId := 2, dateToClaim := "2025-11-05",
           status := "claimed", amount := 850, createdAt := none,
           transactions := [{ student := none }] }] :=
  filteredOrders_all_identity "admin" "Juan Dela Cruz" _ (by decide)

/-- Search part of the `ProductsManager.tsx` list filter: case-insensitive
substring match on name or category. -/
def productMatchesSearch (term : String) (p : Product) : Bool :=
  jsIncludes (jsToLower p.productName) (jsToLower term)
  || jsIncludes (jsToLower p.productCategory) (jsToLower term)

/-- Search filter of `ProductsManager.tsx` restricted to the search term
(the category and status dropdowns are left at their neutral values). -/
def productsSearchFilter (term : String) (ps : List Product) : List Product :=
  ps.filter (productMatchesSearch term)

/-- Search predicate of `UsersManager.tsx` `filteredStudents`:
case-insensitive substring match on full name, college or program. -/
def studentMatchesSearch (term : String) (s : StudentRec) : Bool :=
  jsIncludes (jsToLower (s.firstname ++ " " ++ s.lastname)) (jsToLower term)
  || jsIncludes (jsToLower s.college) (jsToLower term)
  || jsIncludes (jsToLower s.program) (jsToLower term)

/-- Search filter of `UsersManager.tsx`. -/
def studentsSearchFilter (term : String) (ss : List StudentRec) :
    List StudentRec :=
  ss.filter (studentMatchesSearch term)

/-- Filtering twice with one predicate equals filtering once. -/
theorem filter_twice {α : Type} (p : α → Bool) (l : List α) :
    (l.filter p).filter p = l.filter p := by
  induction l with
  | nil => rfl
  | cons a t ih =>
    by_cases h : p a = true
    · simp [List.filter_cons, h, ih]
    · simp [List.filter_cons, h, ih]

/-- C8: the search filters of the products manager and of the users manager
are idempotent: applying either twice with the same term returns the same
list as applying it once. -/
theorem search_filter_idempotent (term : String) (ps : List Product)
    (ss : List StudentRec) :
    productsSearchFilter term (productsSearchFilter term ps)
      = productsSearchFilter term ps
    ∧ studentsSearchFilter term (studentsSearchFilter term ss)
      = studentsSearchFilter term ss :=
  ⟨filter_twice (productMatchesSearch term) ps,
   filter_twice (studentMatchesSearch term) ss⟩

/-- Uniform variant as fetched by `StudentShop.tsx` from `GET /uniforms`,
with the parent product embedded. -/
structure Uniform where
  uniformId : Int
  sizeType : String
  gender : String
  type : String
  product : Product
deriving DecidableEq

/-- Product filter of `StudentShop.tsx` `filteredProducts`: search match,
category match, `quantity > 0`, and not in the Uniform category (uniforms are
rendered from the variant list instead). -/
def shopFilteredProducts (searchTerm categoryFilter : String)
    (products : List Product) : List Product :=
  products.filter (fun product =>
    (jsIncludes (jsToLower product.productName) (jsToLower searchTerm)
      || jsIncludes (jsToLower product.productCategory) (jsToLower searchTerm))
    && (categoryFilter == "all" || product.productCategory == categoryFilter)
    && decide (0 < product.quantity)
    && decide (product.productCategory ≠ "Uniform"))

/-- Uniform filter of `StudentShop.tsx` `filteredUniforms`: search match on
the parent product name or the uniform type, and the category dropdown must
be `"all"` or `"Uniform"`.  There is no stock condition here. -/
def shopFilteredUniforms (searchTerm categoryFilter : String)
    (uniforms : List Uniform) : List Uniform :=
  uniforms.filter (fun uniform =>
    (jsIncludes (jsToLower uniform.product.productName) (jsToLower searchTerm)
      || jsIncludes (jsToLower uniform.type) (jsToLower searchTerm))
    && (categoryFilter == "all" || categoryFilter == "Uniform"))

/-- Purchasable uniform card of `StudentShop.tsx`: one card per
(type, gender) pair, carrying the parent product of the first variant seen
and the variants in arrival order. -/
structure UniformCardGroup where
  type : String
  gender : String
  product : Product
  variants : List Uniform
deriving DecidableEq

/-- One step of the `groupedUniforms` reduce of `StudentShop.tsx`: append the
variant to its (type, gender) group, creating the group on first sight
(JavaScript object keys preserve insertion order). -/
def insertUniform (acc : List UniformCardGroup) (u : Uniform) : List UniformCardGroup :=
  if acc.any (fun g => g.type == u.type && g.gender == u.gender) then
    acc.map (fun g =>
      if g.type == u.type && g.gender == u.gender then
        { g with variants := g.variants ++ [u] }
      else g)
  else
    acc ++ [{ type := u.type, gender := u.gender, product := u.product,
              variants := [u] }]

/-- The `groupedUniforms`/`uniformGroups` computation of `StudentShop.tsx`. -/
def uniformGroups (us : List Uniform) : List UniformCardGroup :=
  us.foldl insertUniform []

/-- C5 counterexample input: the parent product of a uniform, sold out. -/
def soldOutUniformProduct : Product :=
  { productId := 3, productName := "Male Standard Uniform Shirt M",
    productCategory := "Uniform", price := 850, status := "out of stock",
    quantity := 0 }

/-- C5 counterexample input: a variant of the sold-out uniform product. -/
def soldOutUniform : Uniform :=
  { uniformId := 11, sizeType := "M", gender := "Male",
    type := "Standard Uniform", product := soldOutUniformProduct }

/-- C5: uniform-group cards are not stock-filtered; with an empty search term
and the `"all"` category a variant whose parent product has quantity 0 still
produces a purchasable card. -/
theorem shop_uniform_counterexample :
    uniformGroups (shopFilteredUniforms "" "all" [soldOutUniform])
      = [{ type := "Standard Uniform", gender := "Male",
           product := soldOutUniformProduct, variants := [soldOutUniform] }]
    ∧ soldOutUniformProduct.quantity = 0 := by
  refine ⟨by decide, rfl⟩

/-- C5 (amended): every regular product card offered by the student shop has
quantity strictly greater than 0 (the product filter demands it), while
uniform-group cards carry no such guarantee. -/
theorem shop_products_in_stock (products : List Product)
    (searchTerm categoryFilter : String) (p : Product)
    (hp : p ∈ shopFilteredProducts searchTerm categoryFilter products) :
    0 < p.quantity := by
  unfold shopFilteredProducts at hp
  rw [List.mem_filter] at hp
  have hpred := hp.2
  simp only [Bool.and_eq_true, decide_eq_true_eq] at hpred
  exact hpred.1.2

/-- C5 witness: a concrete in-stock product passes the filter and the theorem
yields its stock bound. -/
theorem shop_products_in_stock_witness :
    0 < ({ productId := 2, productName := "School Supplies Kit",
           productCategory := "Supplies", price := 350, status := "in stock",
           quantity := 5 } : Product).quantity :=
  shop_products_in_stock
    [{ productId := 2, productName := "School Supplies Kit",
       productCategory := "Supplies", price := 350, status := "in stock",
       quantity := 5 }]
    "" "all" _ (by decide)

/-- Form state of the admin order-creation dialog in `OrdersManager.tsx`
(`formData`): product, claim date, status, and a manually typed amount.  The
dialog has no quantity field. -/
structure AdminOrderForm where
  productId : Int
  dateToClaim : String
  status : String
  amount : Int
deriving DecidableEq

/-- Body of `api.createOrder(productId, dateToClaim, amount, status)`.  The
amount is an optional number because the student-shop caller can compute
`NaN` (modelled as `none`). -/
structure CreateOrderRequest where
  productId : Int
  dateToClaim : String
  amount : Option Int
  status : String
deriving DecidableEq

/-- Order-creation request issued by the admin dialog submit handler in
`OrdersManager.tsx`: every field is passed through from the form. -/
def adminCreateOrderRequest (f : AdminOrderForm) : CreateOrderRequest :=
  { productId := f.productId, dateToClaim := f.dateToClaim,
    amount := some f.amount, status := f.status }

/-- Total computed by `StudentShop.tsx` `handleSubmitOrder`:
`(selectedProduct?.price || selectedUniformGroup?.product.price) * quantity`,
with JS truthiness on the left operand (price 0 falls through; both sides
absent gives `NaN`, modelled as `none`). -/
def studentTotalAmount (sp : Option Product) (sg : Option UniformCardGroup)
    (qty : Int) : Option Int :=
  (jsOrNum (sp.map Product.price) (sg.map (fun g => g.product.price))).map
    (fun pr => pr * qty)

/-- C4 counterexample input: an admin form with amount 5 typed in. -/
def adminTypedForm : AdminOrderForm :=
  { productId := 1, dateToClaim := "2025-11-04", status := "pending",
    amount := 5 }

/-- C4 counterexample input: the referenced product, priced 100. -/
def priceHundredProduct : Product :=
  { productId := 1, productName := "RTU Student ID Card",
    productCategory := "ID & Cards", price := 100, status := "in stock",
    quantity := 20 }

/-- C4: the admin order-creation dialog sends the typed amount unchanged; for
the form referencing the price-100 product with typed amount 5 the created
order carries amount 5, which is below the unit price, so it cannot equal
price times any quantity of at least 1. -/
theorem order_amount_counterexample :
    (adminCreateOrderRequest adminTypedForm).amount = some 5
    ∧ priceHundredProduct.productId = adminTypedForm.productId
    ∧ (adminCreateOrderRequest adminTypedForm).amount
        ≠ some (priceHundredProduct.price * 1)
    ∧ (5 : Int) < priceHundredProduct.price := by
  refine ⟨rfl, rfl, by decide, by decide⟩

/-- C4 (amended): the student-shop submission computes amount as unit price
times quantity, both for a regular product (whose price is nonzero, otherwise
the JS `||` falls through) and for a uniform group; the admin dialog instead
sends the manually entered amount unchanged. -/
theorem order_amount_amended (p : Product) (g : UniformCardGroup) (qty : Int)
    (hp : p.price ≠ 0) :
    studentTotalAmount (some p) none qty = some (p.price * qty)
    ∧ studentTotalAmount none (some g) qty = some (g.product.price * qty)
    ∧ ∀ f : AdminOrderForm, (adminCreateOrderRequest f).amount = some f.amount := by
  unfold studentTotalAmount jsOrNum
  refine ⟨?_, rfl, fun f => rfl⟩
  simp [hp]

/-- C4 witness: the amended statement at a concrete product, group and
quantity. -/
theorem order_amount_amended_witness :
    studentTotalAmount (some priceHundredProduct) none 3 = some 300 :=
  (order_amount_amended priceHundredProduct
    { type := "PE", gender := "Unisex", product := soldOutUniformProduct,
      variants := [] }
    3 (by decide)).1

/-- Order form state of `StudentShop.tsx` (`orderData`). -/
structure OrderData where
  productId : Int
  quantity : Int
  claimDate : String
  selectedSize : Option String
deriving DecidableEq

/-- Slice of the `StudentShop.tsx` component state that
`handleSubmitOrder` reads and writes. -/
structure ShopState where
  selectedProduct : Option Product
  selectedUniformGroup : Option UniformCardGroup
  orderData : OrderData
  showOrderModal : Bool
  showTicket : Bool
deriving DecidableEq

/-- Outcome of a shop submission: a client-side rejection with a toast
message, or an issued order-creation request. -/
inductive SubmitOutcome
  | rejected (message : String)
  | submitted (req : CreateOrderRequest)
deriving DecidableEq

/-- The `handleSubmitOrder` flow of `StudentShop.tsx`: when a uniform group is
selected and no size is chosen (`undefined` or `""`), reject with
"Please select a size" and leave the state alone; otherwise issue
`createOrder` with the computed total and status `"pending"`, close the
modal, show the ticket, and clear both selections (`orderData` is kept).
The server-dependent `confirmedOrder` display record is outside this pure
model. -/
def handleSubmitOrder (s : ShopState) : SubmitOutcome × ShopState :=
  if s.selectedUniformGroup.isSome && isFalsyStr s.orderData.selectedSize then
    (SubmitOutcome.rejected "Please select a size", s)
  else
    (SubmitOutcome.submitted
      { productId := s.orderData.productId,
        dateToClaim := s.orderData.claimDate,
        amount := studentTotalAmount s.selectedProduct s.selectedUniformGroup
          s.orderData.quantity,
        status := "pending" },
     { s with showOrderModal := false, showTicket := true,
              selectedProduct := none, selectedUniformGroup := none })

/-- C6: submitting with a uniform group selected and no chosen size is
rejected with exactly "Please select a size", no request is issued, and the
whole form state is returned unchanged. -/
theorem submit_requires_size (s : ShopState) (g : UniformCardGroup)
    (hg : s.selectedUniformGroup = some g)
    (hs : isFalsyStr s.orderData.selectedSize = true) :
    handleSubmitOrder s = (SubmitOutcome.rejected "Please select a size", s) := by
  unfold handleSubmitOrder
  rw [hg]
  simp [hs]

/-- C6 witness input: the state `handleUniformOrder` produces (size `""`),
just before a submission with no size picked. -/
def noSizeShopState : ShopState :=
  { selectedProduct := none,
    selectedUniformGroup := some
      { type := "Standard Uniform", gender := "Male",
        product := soldOutUniformProduct, variants := [soldOutUniform] },
    orderData :=
      { productId := 3, quantity := 1, claimDate := "2025-11-04",
        selectedSize := some "" },
    showOrderModal := true, showTicket := false }

/-- C6 witness: the rejection evaluated on the concrete no-size state. -/
theorem submit_requires_size_witness :
    handleSubmitOrder noSizeShopState
      = (SubmitOutcome.rejected "Please select a size", noSizeShopState) :=
  submit_requires_size noSizeShopState
    { type := "Standard Uniform", gender := "Male",
      product := soldOutUniformProduct, variants := [soldOutUniform] }
    rfl (by decide)

/-- Initial quantity set by `handleProductOrder` and `handleUniformOrder` in
`StudentShop.tsx`. -/
def initQuantity : Int := 1

/-- Decrement control of the quantity stepper:
`Math.max(1, orderData.quantity - 1)`. -/
def decQuantity (q : Int) : Int := max 1 (q - 1)

/-- Increment control of the quantity stepper: `orderData.quantity + 1`. -/
def incQuantity (q : Int) : Int := q + 1

/-- Text entry of the quantity field: `parseInt(e.target.value) || 1`, taking
the `parseInt` result as input (`none` for `NaN`); `NaN` and 0 are falsy and
fall back to 1, every other integer is kept. -/
def quantityFromInput : Option Int → Int
  | none => 1
  | some n => if n = 0 then 1 else n

/-- C10: typing a negative number into the quantity field breaks the claimed
invariant: `parseInt` yields -5, which is truthy, so the fallback to 1 does
not fire and the configured quantity becomes -5. -/
theorem quantity_invariant_counterexample :
    quantityFromInput (some (-5)) = -5
    ∧ ¬ 1 ≤ quantityFromInput (some (-5)) := by
  refine ⟨by decide, by decide⟩

/-- C10 (amended): the quantity starts at 1 and stays at least 1 under the
decrement and increment controls and under non-numeric or zero text entry,
while a nonzero numeric entry is stored as typed (so only a negative typed
number can break the invariant). -/
theorem quantity_ops_amended (q : Int) (h : 1 ≤ q) :
    initQuantity = 1
    ∧ 1 ≤ decQuantity q
    ∧ 1 ≤ incQuantity q
    ∧ quantityFromInput none = 1
    ∧ quantityFromInput (some 0) = 1
    ∧ ∀ n : Int, 1 ≤ n → quantityFromInput (some n) = n := by
  refine ⟨rfl, le_max_left _ _, by unfold incQuantity; omega, rfl, by decide,
    fun n hn => ?_⟩
  unfold quantityFromInput
  have hne : ¬ n = 0 := by omega
  simp [hne]

/-- C10 witness: the amended statement evaluated at quantity 1 and a typed
entry of 3. -/
theorem quantity_ops_amended_witness :
    1 ≤ decQuantity 1 ∧ quantityFromInput (some 3) = 3 :=
  ⟨(quantity_ops_amended 1 (by decide)).2.1,
   (quantity_ops_amended 1 (by decide)).2.2.2.2.2 3 (by decide)⟩
